import Mathlib

/-!
Verification of the PPO full-finetune recipe
(`recipes/ppo_full_finetune_single_device.py`) against its specification.

The recipe's pure control flow and numeric transforms are shallowly embedded:

* machine integers become `Nat`/`Int`, real-valued tensors become `ℚ`;
* per-row tensors over generated positions become functions `Nat → ℚ` /
  `Nat → Bool`, and 2-D microbatch tensors become `Nat → Nat → ℚ`;
* the training loop is embedded as the trace of optimisation events it emits;
* fallible setup code returns `Except`.

Collaborator outputs (neural-network forward passes, the loss function) are
taken as parameters.  Library helpers of this repository that are not part of
the recipe file itself (`rlhf.truncate_sequence_at_first_stop_token`,
`training.get_unmasked_sequence_lengths`, `rlhf.get_reward_penalty_mask`)
are modelled from the specification's description of them; each such
definition is marked `Modelled from the spec:` in its doc comment.
-/

namespace PPORecipe

/-! ## Training-parameter validation (`_setup_training_parameters`, lines 396-468) -/

/-- Parameters produced by a successful `_setup_training_parameters` call. -/
structure TrainingParams where
  batchSize : Nat
  forwardBatchSize : Nat
  ppoEpochs : Nat
  ppoBatchSize : Nat
  gradAccumSteps : Nat
  ppoBackwardBatchSize : Nat
  totalSteps : Nat
  totalEpochs : Nat
deriving Repr, DecidableEq

/-- `math.ceil(a / b)` for natural numbers (`b > 0`). -/
def ceilDiv (a b : Nat) : Nat :=
  (a + b - 1) / b

/-- Embedding of `_setup_training_parameters` (source lines 410-451): computes
`ppo_backward_batch_size = ppo_batch_size // gradient_accumulation_steps`,
raises on the divisibility violations, on gradient accumulation combined with
optimizer-in-backward, and on a zero total step budget
`num_steps // batch_size`. -/
def setupTrainingParameters (batchSize forwardBatchSize ppoEpochs ppoBatchSize
    gradAccumSteps : Nat) (optimizerInBwd : Bool) (numSteps dataloaderLen : Nat) :
    Except String TrainingParams :=
  let ppoBackwardBatchSize := ppoBatchSize / gradAccumSteps
  if batchSize % forwardBatchSize ≠ 0 then
    .error "batch_size must be exactly divisible by forward_batch_size."
  else if batchSize % ppoBatchSize ≠ 0 then
    .error "batch_size must be exactly divisible by ppo_batch_size."
  else if ppoBatchSize % gradAccumSteps ≠ 0 then
    .error "ppo_batch_size must be exactly divisible by gradient_accumulation_steps."
  else if 1 < gradAccumSteps ∧ optimizerInBwd = true then
    .error "Gradient accumulation is not supported with optimizer in bwd."
  else
    let totalSteps := numSteps / batchSize
    let batchesPerEpoch := max 1 dataloaderLen
    let totalEpochs := ceilDiv totalSteps batchesPerEpoch
    if totalSteps = 0 then
      .error "num_steps must be greater than the batch size."
    else
      .ok
        { batchSize := batchSize
          forwardBatchSize := forwardBatchSize
          ppoEpochs := ppoEpochs
          ppoBatchSize := ppoBatchSize
          gradAccumSteps := gradAccumSteps
          ppoBackwardBatchSize := ppoBackwardBatchSize
          totalSteps := totalSteps
          totalEpochs := totalEpochs }

/-- `Except.isOk` expressed on our result type: whether setup completed
without raising. -/
def setupSucceeds (r : Except String TrainingParams) : Bool :=
  match r with
  | .ok _ => true
  | .error _ => false

end PPORecipe

namespace PPORecipe

/-! ## The PPO optimisation loop (`train`, source lines 980-1025)

The loop structure is embedded as the trace of optimisation events it emits:
one `backward` event (with the microbatch size) per `ppo_step` call, then —
per minibatch — an optimizer step (when `optimizer_in_bwd` is disabled), a
learning-rate-scheduler step (when a scheduler is configured), and a
`global_step` increment. -/

/-- Python's `range(start, stop, step)` for a positive `step`. -/
def pyRange (start stop step : Nat) : List Nat :=
  (List.range ((stop - start + step - 1) / step)).map (fun k => start + k * step)

/-- Events emitted by the training loop of `train`. -/
inductive TrainEvent where
  | backward (size : Nat)
  | optStep
  | lrStep
  | incGlobalStep
deriving Repr, DecidableEq

/-- Sizes of the microbatch slices `mini_batch_idxs[j : j + ppo_backward_batch_size]`
taken by the inner loop `for j in range(0, ppo_batch_size, ppo_backward_batch_size)`
(source lines 989-994). -/
def microbatchSizes (ppoBatchSize backwardBatchSize : Nat) : List Nat :=
  (pyRange 0 ppoBatchSize backwardBatchSize).map
    (fun j => min backwardBatchSize (ppoBatchSize - j))

/-- Events of one minibatch iteration (source lines 986-1025): one backward
pass per microbatch slice, then the optimizer step (unless `optimizer_in_bwd`),
the scheduler step (if configured), and the `global_step` increment. -/
def minibatchEvents (ppoBatchSize backwardBatchSize : Nat)
    (optimizerInBwd hasScheduler : Bool) : List TrainEvent :=
  (microbatchSizes ppoBatchSize backwardBatchSize).map TrainEvent.backward
    ++ (if optimizerInBwd then [] else [TrainEvent.optStep])
    ++ (if hasScheduler then [TrainEvent.lrStep] else [])
    ++ [TrainEvent.incGlobalStep]

/-- Event trace of one training step (source lines 983-1025):
`for _ in range(ppo_epochs): for i in range(0, batch_size, ppo_batch_size): ...`
with `ppo_backward_batch_size = ppo_batch_size // gradient_accumulation_steps`
(source lines 415-417). -/
def trainStepEvents (ppoEpochs batchSize ppoBatchSize gradAccumSteps : Nat)
    (optimizerInBwd hasScheduler : Bool) : List TrainEvent :=
  (List.range ppoEpochs).flatMap fun _ =>
    (pyRange 0 batchSize ppoBatchSize).flatMap fun _ =>
      minibatchEvents ppoBatchSize (ppoBatchSize / gradAccumSteps)
        optimizerInBwd hasScheduler

/-! ## Trajectory generation (`generate_trajectory`, source lines 776-904)

One row of the batch is embedded.  The generated response is a `List Int` of
token ids; the policy/reference log-probabilities and the value estimates
produced by the model collaborators are parameters (`Nat → ℚ`, indexed by
generated position), as is the reward-model score read off at the last valid
token.  Masks over generated positions are `Nat → Bool` (true = invalid). -/

/-- Modelled from the spec: the row-aligned boolean mask produced by
`rlhf.truncate_sequence_at_first_stop_token` (spec §4.1 step 4): for each row,
find the first occurrence of any configured stop-token id; all positions at or
after it are marked invalid. -/
def respPaddingMask (stopTokens response : List Int) (t : Nat) : Bool :=
  (response.take (t + 1)).any (fun x => decide (x ∈ stopTokens))

/-- Modelled from the spec: `seq_lens` as returned by
`training.get_unmasked_sequence_lengths` — the per-row count of valid
(un-padded) generated tokens (spec §3). -/
def seqLen (stopTokens response : List Int) : Nat :=
  (List.range response.length).countP (fun t => !respPaddingMask stopTokens response t)

/-- Whether any stop token occurs anywhere in the generated response. -/
def hasStopToken (stopTokens response : List Int) : Bool :=
  response.any (fun x => decide (x ∈ stopTokens))

/-- `value_seq_idxs` (source lines 881-885): shift the last-valid-value index
one past `seq_lens` only when `0 < seq_lens < max_generated_tokens - 1`. -/
def valueSeqIdx (maxGeneratedTokens sl : Nat) : Nat :=
  if 0 < sl ∧ sl < maxGeneratedTokens - 1 then sl + 1 else sl

/-- Modelled from the spec: `rlhf.get_reward_penalty_mask` (spec §4.1 step 6):
rows with no stop token ever generated (when `penalise_no_eos`) and/or rows
shorter than `min_response_length` (when configured, i.e. non-zero) are marked
for penalty. -/
def rewardPenaltyMask (stopTokens response : List Int) (penaliseNoEos : Bool)
    (minResponseLength : Nat) : Bool :=
  (penaliseNoEos && !hasStopToken stopTokens response)
    || (decide (0 < minResponseLength) &&
        decide (seqLen stopTokens response < minResponseLength))

/-- One row of a `Trajectory` (the fields the claims are about). -/
structure TrajectoryRow where
  logprobs : Nat → ℚ
  refLogprobs : Nat → ℚ
  values : Nat → ℚ
  responsePaddingMask : Nat → Bool
  valuePaddingMask : Nat → Bool
  valueSeqIdx : Nat
  score : ℚ
  seqLen : Nat

/-- Embedding of `generate_trajectory` steps 4-6.1 (source lines 843-904) for
one row.  `rawLogprobs`, `rawRefLogprobs`, `rawValues` are the model
collaborators' outputs before masking, and `rewardScore` is the reward-model
output gathered at the last valid token (step 5.1):

* step 5.2 (lines 867-874): if configured, overwrite the score with the
  penalty constant where the penalty mask holds;
* step 6 (lines 877-878): `logprobs[response_padding_masks] = 1.0` and
  `ref_logprobs[response_padding_masks] = 1.0`;
* step 6.1 (lines 881-890): `value_padding_masks` is a clone of
  `response_padding_masks` with position `value_seq_idxs` scattered to
  `False`, and `values[value_padding_masks] = 0.0`. -/
def generateTrajectoryRow (stopTokens : List Int) (maxGeneratedTokens : Nat)
    (penaliseNoEos : Bool) (minResponseLength : Nat) (rewardPenalty : ℚ)
    (response : List Int) (rawLogprobs rawRefLogprobs rawValues : Nat → ℚ)
    (rewardScore : ℚ) : TrajectoryRow :=
  let mask := respPaddingMask stopTokens response
  let sl := seqLen stopTokens response
  let score :=
    if (penaliseNoEos || decide (0 < minResponseLength))
        && rewardPenaltyMask stopTokens response penaliseNoEos minResponseLength
    then rewardPenalty else rewardScore
  let idx := valueSeqIdx maxGeneratedTokens sl
  let vmask := fun t => if t = idx then false else mask t
  { logprobs := fun t => if mask t then 1 else rawLogprobs t
    refLogprobs := fun t => if mask t then 1 else rawRefLogprobs t
    values := fun t => if vmask t then 0 else rawValues t
    responsePaddingMask := mask
    valuePaddingMask := vmask
    valueSeqIdx := idx
    score := score
    seqLen := sl }

/-! ## The PPO optimisation step (`ppo_step`, source lines 1085-1164)

A microbatch is a rectangular `rows × cols` tensor (`cols` = number of
generated positions), embedded as functions `Nat → Nat → ℚ`.  The recomputed
policy log-probabilities and value estimates before masking (`rawPiLogprobs`,
`rawPhiValues`) are model-collaborator outputs; the loss function is an
external collaborator. -/

/-- Outputs of the external loss-function collaborator
(`loss, policy_loss, value_loss, ratios, clipfrac`). -/
structure LossOutputs where
  loss : ℚ
  policyLoss : ℚ
  valueLoss : ℚ
  ratios : ℚ
  clipfrac : ℚ

/-- Call contract of the loss-function collaborator (source lines 1138-1147):
old log-probs, new log-probs, advantages, old values, new values, returns,
and the two (negated) validity masks. -/
def LossFn : Type :=
  (Nat → Nat → ℚ) → (Nat → Nat → ℚ) → (Nat → Nat → ℚ) → (Nat → Nat → ℚ) →
  (Nat → Nat → ℚ) → (Nat → Nat → ℚ) → (Nat → Nat → Bool) → (Nat → Nat → Bool) →
  LossOutputs

/-- A loss collaborator returning zeros, used for concrete instantiations. -/
def zeroLossFn : LossFn :=
  fun _ _ _ _ _ _ _ _ => ⟨0, 0, 0, 0, 0⟩

/-- The `PPOStats` named tuple returned by `ppo_step`. -/
structure PPOStats where
  loss : ℚ
  policyLoss : ℚ
  valueLoss : ℚ
  ratios : ℚ
  clipfrac : ℚ
  approxPolicyKls : ℚ

/-- `torch.Tensor.mean()` over a rectangular `rows × cols` tensor. -/
def tensorMean (rows cols : Nat) (f : Nat → Nat → ℚ) : ℚ :=
  ((List.range rows).map (fun i => ((List.range cols).map (f i)).sum)).sum
    / ((rows : ℚ) * (cols : ℚ))

/-- Result of one `ppo_step` call: the masked recomputed tensors (locals
`pi_logprobs` and `phi_values` of the source) and the returned `PPOStats`. -/
structure PPOStepResult where
  piLogprobs : Nat → Nat → ℚ
  phiValues : Nat → Nat → ℚ
  stats : PPOStats

/-- Embedding of `ppo_step` (source lines 1085-1164):

* recompute policy log-probabilities and re-apply the trajectory's response
  padding mask with sentinel 1.0 (line 1121);
* recompute value estimates and re-apply the value padding mask with 0.0
  (line 1135);
* call the loss collaborator (lines 1138-1147) and scale the loss by
  `1 / gradient_accumulation_steps` (line 1149);
* `approx_policy_kls = (0.5 * (pi_logprobs - trajectory.logprobs).pow(2)).mean()`
  (lines 1152-1155);
* return `PPOStats` with every component divided by
  `gradient_accumulation_steps` (lines 1157-1164). -/
def ppoStep (gradAccumSteps rows cols : Nat) (lossFn : LossFn)
    (storedLogprobs storedValues : Nat → Nat → ℚ)
    (respMasks valueMasks : Nat → Nat → Bool)
    (rawPiLogprobs rawPhiValues advantages returnsEst : Nat → Nat → ℚ) :
    PPOStepResult :=
  let piLogprobs := fun i t => if respMasks i t then 1 else rawPiLogprobs i t
  let phiValues := fun i t => if valueMasks i t then 0 else rawPhiValues i t
  let out := lossFn storedLogprobs piLogprobs advantages storedValues phiValues
    returnsEst (fun i t => !respMasks i t) (fun i t => !valueMasks i t)
  let scaledLoss := out.loss / (gradAccumSteps : ℚ)
  let approxPolicyKls :=
    tensorMean rows cols
      (fun i t => (1 / 2) * (piLogprobs i t - storedLogprobs i t) ^ 2)
  { piLogprobs := piLogprobs
    phiValues := phiValues
    stats :=
      { loss := scaledLoss
        policyLoss := out.policyLoss / (gradAccumSteps : ℚ)
        valueLoss := out.valueLoss / (gradAccumSteps : ℚ)
        ratios := out.ratios / (gradAccumSteps : ℚ)
        clipfrac := out.clipfrac / (gradAccumSteps : ℚ)
        approxPolicyKls := approxPolicyKls / (gradAccumSteps : ℚ) } }

/-! ## Checkpointing (`save_checkpoint`, lines 705-745, and the dataset-epoch
loop of `train`, lines 939-1081) -/

/-- Keys of the policy checkpoint dict (`training.MODEL_KEY` etc.). -/
inductive CkptKey where
  | model
  | seed
  | epochsRun
  | totalEpochs
  | maxSteps
  | stepsRun
  | rngState
  | dataloader
  | opt
deriving Repr, DecidableEq

/-- Keys of the policy checkpoint dict built by `save_checkpoint` (source
lines 712-733): always the model weights; when the checkpoint is intermediate,
additionally seed, epochs_run, total_epochs, total_steps, steps_run, RNG
state, dataloader state, and the optimizer state (taken from the optimizer or
from the in-backward wrapper — the same key either way). -/
def policyCheckpointKeys (isIntermediate : Bool) : List CkptKey :=
  [CkptKey.model] ++
    (if isIntermediate then
      [CkptKey.seed, CkptKey.epochsRun, CkptKey.totalEpochs, CkptKey.maxSteps,
        CkptKey.stepsRun, CkptKey.rngState, CkptKey.dataloader, CkptKey.opt]
    else [])

/-- The dataloader loop of one dataset epoch (source lines 943-1071):
each batch increments `steps_run`; the epoch stops early (completed) when
`steps_run == total_steps`.  Returns the new `steps_run` and the
`training_completed` flag. -/
def runEpochBatches : Nat → Nat → Nat → Nat × Bool
  | stepsRun, _totalSteps, 0 => (stepsRun, false)
  | stepsRun, totalSteps, batches + 1 =>
    let s := stepsRun + 1
    if s = totalSteps then (s, true) else runEpochBatches s totalSteps batches

/-- The dataset-epoch loop of `train` (source lines 939-1081), recorded as the
list of `save_checkpoint` calls it makes: one `(curr_epoch, is_intermediate)`
entry per executed epoch, with `is_intermediate = not training_completed`
(line 1076-1078), returning right after a non-intermediate save (lines
1079-1081).  The first argument is the number of remaining epochs
(`total_epochs - epochs_run`). -/
def trainSavesAux : Nat → Nat → Nat → Nat → Nat → List (Nat × Bool)
  | 0, _, _, _, _ => []
  | remaining + 1, currEpoch, stepsRun, totalSteps, batchesPerEpoch =>
    let r := runEpochBatches stepsRun totalSteps batchesPerEpoch
    (currEpoch, !r.2) ::
      (if r.2 then []
       else trainSavesAux remaining (currEpoch + 1) r.1 totalSteps batchesPerEpoch)

/-- The `save_checkpoint` calls of a `train()` run starting from recipe state
`(epochs_run, steps_run)` (source lines 939-1081). -/
def trainSaves (epochsRun totalEpochs stepsRun totalSteps batchesPerEpoch : Nat) :
    List (Nat × Bool) :=
  trainSavesAux (totalEpochs - epochsRun) epochsRun stepsRun totalSteps
    batchesPerEpoch

/-! ## Recipe-state restore (`_update_recipe_state`, source lines 747-774) -/

/-- Python error kinds relevant to `_update_recipe_state`. -/
inductive PyError where
  | keyError
  | typeError
deriving Repr, DecidableEq

/-- The recipe-state part of a loaded policy checkpoint dict: each required
key is present or missing. -/
structure RecipeCkptDict where
  seedKey : Option Nat
  maxStepsKey : Option Nat
  totalEpochsKey : Option Nat
  rngKey : Option Nat
  stepsKey : Option Nat
  epochsKey : Option Nat
deriving Repr, DecidableEq

/-- Recipe state restored by `_update_recipe_state`. -/
structure RecipeState where
  seed : Nat
  stepsRun : Nat
  totalSteps : Nat
  totalEpochs : Nat
  epochsRun : Nat
  rngState : Nat
deriving Repr, DecidableEq

/-- `dict[key]`: raises `KeyError` when the key is missing. -/
def dictGet {α : Type _} : Option α → Except PyError α
  | some v => .ok v
  | none => .error .keyError

/-- The `try` block of `_update_recipe_state` (source lines 753-768): reads
the seed, max-steps and total-epochs keys (for the drift warning, which is
non-fatal and not modelled further), then restores seed, RNG state, steps_run,
total_steps, total_epochs and epochs_run.  Any missing key raises `KeyError`. -/
def tryUpdateRecipeState (d : RecipeCkptDict) : Except PyError RecipeState := do
  let sd ← dictGet d.seedKey
  let _ ← dictGet d.maxStepsKey
  let _ ← dictGet d.totalEpochsKey
  let rng ← dictGet d.rngKey
  let steps ← dictGet d.stepsKey
  let maxSteps ← dictGet d.maxStepsKey
  let totEpochs ← dictGet d.totalEpochsKey
  let epochs ← dictGet d.epochsKey
  .ok ⟨sd, steps, maxSteps, totEpochs, epochs, rng⟩

/-- Embedding of `_update_recipe_state` (source lines 747-774).  The `except
KeyError as e` handler executes `raise KeyError from e(...)`: evaluating the
`from` operand calls the caught `KeyError` *instance* `e`, and calling an
exception instance raises `TypeError` in Python, so the error that actually
propagates out of the handler is a `TypeError`, not the intended `KeyError`. -/
def updateRecipeState (d : RecipeCkptDict) : Except PyError RecipeState :=
  match tryUpdateRecipeState d with
  | .error .keyError => .error .typeError
  | r => r

/-- A checkpoint dict missing every recipe-state key. -/
def emptyRecipeCkptDict : RecipeCkptDict :=
  ⟨none, none, none, none, none, none⟩

theorem flatMap_const {α β : Type _} (l : List α) (X : List β) :
    (l.flatMap fun _ => X) = (List.replicate l.length X).flatten := by
  induction l with
  | nil => rfl
  | cons a l ih =>
    simp only [List.flatMap_cons, ih, List.length_cons, List.replicate_succ,
      List.flatten_cons]

theorem flatten_replicate_flatten {α : Type _} (e m : Nat) (M : List α) :
    (List.replicate e ((List.replicate m M).flatten)).flatten =
      (List.replicate (e * m) M).flatten := by
  induction e with
  | zero => simp
  | succ e ih =>
    rw [List.replicate_succ, List.flatten_cons, ih, Nat.succ_mul, Nat.add_comm,
      List.replicate_add, List.flatten_append]

theorem count_flatten_replicate {α : Type _} [DecidableEq α] (a : α) (n : Nat)
    (L : List α) :
    ((List.replicate n L).flatten).count a = n * L.count a := by
  induction n with
  | zero => simp
  | succ n ih =>
    rw [List.replicate_succ, List.flatten_cons, List.count_append, ih,
      Nat.succ_mul, Nat.add_comm]

theorem ceil_div_of_dvd {p s : Nat} (hs : 0 < s) (h : s ∣ p) :
    (p + s - 1) / s = p / s := by
  obtain ⟨q, rfl⟩ := h
  have h1 : s * q + s - 1 = (s - 1) + s * q := by omega
  rw [h1, Nat.add_mul_div_left _ _ hs, Nat.div_eq_of_lt (by omega),
    Nat.mul_div_cancel_left _ hs, Nat.zero_add]

theorem pyRange_zero_of_dvd {p s : Nat} (hs : 0 < s) (h : s ∣ p) :
    pyRange 0 p s = (List.range (p / s)).map (fun k => k * s) := by
  unfold pyRange
  rw [Nat.sub_zero, ceil_div_of_dvd hs h]
  simp only [Nat.zero_add]

theorem microbatchSizes_eq_replicate {p g : Nat} (hp : 0 < p) (hg : 0 < g)
    (h : g ∣ p) :
    microbatchSizes p (p / g) = List.replicate g (p / g) := by
  have hB : 0 < p / g := Nat.div_pos (Nat.le_of_dvd hp h) hg
  have hBp : (p / g) ∣ p := Nat.div_dvd_of_dvd h
  have hpg : p / (p / g) = g := Nat.div_div_self h (Nat.pos_iff_ne_zero.mp hp)
  unfold microbatchSizes
  rw [pyRange_zero_of_dvd hB hBp, hpg, List.map_map]
  rw [List.eq_replicate_iff]
  constructor
  · simp
  · intro x hx
    simp only [List.mem_map, List.mem_range, Function.comp] at hx
    obtain ⟨k, hk, rfl⟩ := hx
    have hgb : g * (p / g) = p := Nat.mul_div_cancel' h
    have hle : p / g ≤ p - k * (p / g) := by
      have h2 : (g - k) * (p / g) = g * (p / g) - k * (p / g) := Nat.sub_mul g k (p / g)
      have h3 : p / g ≤ (g - k) * (p / g) :=
        Nat.le_mul_of_pos_left _ (by omega)
      omega
    simp [Nat.min_eq_left hle]

theorem minibatchEvents_eq {p g : Nat} (hp : 0 < p) (hg : 0 < g) (h : g ∣ p) :
    minibatchEvents p (p / g) false true =
      List.replicate g (TrainEvent.backward (p / g)) ++
        [TrainEvent.optStep, TrainEvent.lrStep, TrainEvent.incGlobalStep] := by
  unfold minibatchEvents
  rw [microbatchSizes_eq_replicate hp hg h]
  simp [List.map_replicate]

theorem trainStepEvents_eq {e b p g : Nat} (hp : 0 < p) (hg : 0 < g)
    (hpb : p ∣ b) (hgp : g ∣ p) :
    trainStepEvents e b p g false true =
      (List.replicate (e * (b / p))
        (List.replicate g (TrainEvent.backward (p / g)) ++
          [TrainEvent.optStep, TrainEvent.lrStep, TrainEvent.incGlobalStep])).flatten := by
  unfold trainStepEvents
  have hlen : (pyRange 0 b p).length = b / p := by
    rw [pyRange_zero_of_dvd hp hpb]
    simp
  simp only [flatMap_const, hlen, List.length_range, minibatchEvents_eq hp hg hgp,
    flatten_replicate_flatten]

theorem respPaddingMask_eq_false {stopTokens response : List Int}
    (h : hasStopToken stopTokens response = false) (t : Nat) :
    respPaddingMask stopTokens response t = false := by
  unfold respPaddingMask
  unfold hasStopToken at h
  rw [List.any_eq_false] at h ⊢
  intro x hx
  exact h x (List.mem_of_mem_take hx)

theorem respPaddingMask_mono (stopTokens response : List Int) {t u : Nat}
    (htu : t ≤ u) (hm : respPaddingMask stopTokens response t = true) :
    respPaddingMask stopTokens response u = true := by
  unfold respPaddingMask at hm ⊢
  rw [List.any_eq_true] at hm ⊢
  obtain ⟨x, hx, hpx⟩ := hm
  refine ⟨x, ?_, hpx⟩
  have hts : response.take (t + 1) = (response.take (u + 1)).take (t + 1) := by
    rw [List.take_take, Nat.min_eq_left (by omega)]
  exact List.mem_of_mem_take (hts ▸ hx)

theorem seqLen_of_no_stop {stopTokens response : List Int}
    (h : hasStopToken stopTokens response = false) :
    seqLen stopTokens response = response.length := by
  unfold seqLen
  rw [show (List.range response.length).countP
        (fun t => !respPaddingMask stopTokens response t) =
      (List.range response.length).length from
    List.countP_eq_length.mpr (fun t _ => by
      rw [respPaddingMask_eq_false h t]
      rfl)]
  exact List.length_range response.length

theorem tensorMean_const_mul (rows cols : Nat) (c : ℚ) (f : Nat → Nat → ℚ) :
    tensorMean rows cols (fun i t => c * f i t) = c * tensorMean rows cols f := by
  unfold tensorMean
  rw [← mul_div_assoc]
  congr 1
  simp only [List.sum_map_mul_left]

theorem trainSavesAux_map_fst (remaining : Nat) :
    ∀ (currEpoch stepsRun totalSteps bpe : Nat),
      (trainSavesAux remaining currEpoch stepsRun totalSteps bpe).map Prod.fst =
        List.range' currEpoch
          (trainSavesAux remaining currEpoch stepsRun totalSteps bpe).length := by
  induction remaining with
  | zero => intro c s ts b; rfl
  | succ n ih =>
    intro c s ts b
    simp only [trainSavesAux]
    by_cases hc : (runEpochBatches s ts b).2 = true
    · simp [hc, List.range'_succ]
    · simp only [Bool.not_eq_true] at hc
      simp [hc, ih, List.range'_succ]

theorem trainSavesAux_intermediate (remaining : Nat) :
    ∀ (currEpoch stepsRun totalSteps bpe i : Nat),
      i + 1 < (trainSavesAux remaining currEpoch stepsRun totalSteps bpe).length →
      ((trainSavesAux remaining currEpoch stepsRun totalSteps bpe).getD i
        (0, false)).2 = true := by
  induction remaining with
  | zero => intro c s ts b i h; simp [trainSavesAux] at h
  | succ n ih =>
    intro c s ts b i h
    simp only [trainSavesAux] at h ⊢
    by_cases hc : (runEpochBatches s ts b).2 = true
    · simp [hc] at h
    · simp only [Bool.not_eq_true] at hc
      simp only [hc, Bool.not_false, if_false] at h ⊢
      cases i with
      | zero => rfl
      | succ j =>
        simp only [List.length_cons, Nat.add_lt_add_iff_right] at h
        simpa using ih (c + 1) (runEpochBatches s ts b).1 ts b j h

end PPORecipe

/-- C1: with `optimizer_in_bwd` disabled and a learning-rate scheduler
configured, the per-training-step event trace is exactly
`ppo_epochs * (batch_size / ppo_batch_size)` repetitions of
(`gradient_accumulation_steps` backward passes over microbatches of size
`ppo_batch_size / gradient_accumulation_steps`, then one optimizer step, one
scheduler step and one `global_step` increment); in particular there are
exactly `ppo_epochs * (batch_size / ppo_batch_size)` optimizer steps,
scheduler steps and `global_step` increments per training step. -/
theorem C1_train_loop_schedule (e b p g : Nat) (hp : 0 < p) (hg : 0 < g)
    (hpb : p ∣ b) (hgp : g ∣ p) :
    PPORecipe.trainStepEvents e b p g false true =
      (List.replicate (e * (b / p))
        (List.replicate g (PPORecipe.TrainEvent.backward (p / g)) ++
          [PPORecipe.TrainEvent.optStep, PPORecipe.TrainEvent.lrStep,
            PPORecipe.TrainEvent.incGlobalStep])).flatten
    ∧ (PPORecipe.trainStepEvents e b p g false true).count
        PPORecipe.TrainEvent.optStep = e * (b / p)
    ∧ (PPORecipe.trainStepEvents e b p g false true).count
        PPORecipe.TrainEvent.lrStep = e * (b / p)
    ∧ (PPORecipe.trainStepEvents e b p g false true).count
        PPORecipe.TrainEvent.incGlobalStep = e * (b / p)
    ∧ (PPORecipe.trainStepEvents e b p g false true).count
        (PPORecipe.TrainEvent.backward (p / g)) = e * (b / p) * g := by
  have hmain := PPORecipe.trainStepEvents_eq (e := e) hp hg hpb hgp
  refine ⟨hmain, ?_, ?_, ?_, ?_⟩ <;>
    rw [hmain, PPORecipe.count_flatten_replicate] <;>
    simp [List.count_append, List.count_replicate, List.count_cons,
      Nat.mul_assoc]

/-- C1 witness: with batch_size=8, ppo_batch_size=4,
gradient_accumulation_steps=2, ppo_epochs=2, one training step performs
exactly 4 optimizer steps, 4 scheduler steps and 4 `global_step` increments,
each minibatch consisting of exactly 2 backward passes over microbatches of
size 2 (8 backward passes in total). -/
theorem C1_train_loop_schedule_witness :
    0 < 4 ∧ 0 < 2 ∧ (4 : Nat) ∣ 8 ∧ (2 : Nat) ∣ 4 ∧
    PPORecipe.trainStepEvents 2 8 4 2 false true =
      (List.replicate 4
        (List.replicate 2 (PPORecipe.TrainEvent.backward 2) ++
          [PPORecipe.TrainEvent.optStep, PPORecipe.TrainEvent.lrStep,
            PPORecipe.TrainEvent.incGlobalStep])).flatten
    ∧ (PPORecipe.trainStepEvents 2 8 4 2 false true).count
        PPORecipe.TrainEvent.optStep = 4
    ∧ (PPORecipe.trainStepEvents 2 8 4 2 false true).count
        (PPORecipe.TrainEvent.backward 2) = 8 :=
  have h := C1_train_loop_schedule 2 8 4 2 (by decide) (by decide)
    (by decide) (by decide)
  ⟨by decide, by decide, by decide, by decide, h.1, h.2.1, h.2.2.2.2⟩

/-- C5: `_setup_training_parameters` raises a fatal error exactly when
batch_size is not divisible by forward_batch_size, or batch_size is not
divisible by ppo_batch_size, or ppo_batch_size is not divisible by
gradient_accumulation_steps, or gradient_accumulation_steps > 1 is combined
with optimizer_in_bwd, or the total step budget `num_steps // batch_size`
is zero. -/
theorem C5_setup_validation (b f pe p g n dl : Nat) (inBwd : Bool)
    (hf : 0 < f) (hp : 0 < p) (hg : 0 < g) :
    PPORecipe.setupSucceeds (PPORecipe.setupTrainingParameters b f pe p g inBwd n dl) = false ↔
      (¬ f ∣ b ∨ ¬ p ∣ b ∨ ¬ g ∣ p ∨ (1 < g ∧ inBwd = true) ∨ n / b = 0) := by
  unfold PPORecipe.setupTrainingParameters PPORecipe.setupSucceeds
  by_cases h1 : b % f = 0 <;> by_cases h2 : b % p = 0 <;> by_cases h3 : p % g = 0 <;>
    by_cases h4 : 1 < g ∧ inBwd = true <;> by_cases h5 : n / b = 0 <;>
    simp only [h1, h2, h3, h4, h5, if_true, if_false, ite_true, ite_false, ne_eq,
      not_true, not_false_iff, if_neg, if_pos] <;>
    simp_all [Nat.dvd_iff_mod_eq_zero, Nat.pos_iff_ne_zero]

/-- C5 witness: with batch_size=10, forward_batch_size=5, ppo_batch_size=3
(and otherwise benign parameters), setup fails, since 3 does not divide 10. -/
theorem C5_setup_validation_witness :
    0 < 5 ∧ 0 < 3 ∧ 0 < 1 ∧
      PPORecipe.setupSucceeds
        (PPORecipe.setupTrainingParameters 10 5 4 3 1 false 100 1) = false :=
  ⟨by decide, by decide, by decide,
    (C5_setup_validation 10 5 4 3 1 100 1 false (by decide) (by decide) (by decide)).mpr
      (Or.inr (Or.inl (by decide)))⟩

/-- C2: for a row in which no stop token occurs among the
`max_generated_tokens` generated tokens, `seq_lens` equals
`max_generated_tokens`, `response_padding_masks` is all-false for that row,
and `value_seq_idxs` equals `seq_lens` (no +1 shift), because the shift
condition requires `seq_lens < max_generated_tokens - 1`. -/
theorem C2_no_stop_token_row (stopTokens response : List Int)
    (maxGen mrl : Nat) (pen : Bool) (rp : ℚ) (rawLp rawRef rawV : Nat → ℚ)
    (score : ℚ) (hlen : response.length = maxGen)
    (hns : PPORecipe.hasStopToken stopTokens response = false) :
    (PPORecipe.generateTrajectoryRow stopTokens maxGen pen mrl rp response
        rawLp rawRef rawV score).seqLen = maxGen
    ∧ (∀ t, (PPORecipe.generateTrajectoryRow stopTokens maxGen pen mrl rp
        response rawLp rawRef rawV score).responsePaddingMask t = false)
    ∧ (PPORecipe.generateTrajectoryRow stopTokens maxGen pen mrl rp response
        rawLp rawRef rawV score).valueSeqIdx =
      (PPORecipe.generateTrajectoryRow stopTokens maxGen pen mrl rp response
        rawLp rawRef rawV score).seqLen := by
  have hsl : PPORecipe.seqLen stopTokens response = maxGen := by
    rw [PPORecipe.seqLen_of_no_stop hns, hlen]
  refine ⟨?_, ?_, ?_⟩
  · simp only [PPORecipe.generateTrajectoryRow, hsl]
  · intro t
    simp only [PPORecipe.generateTrajectoryRow]
    exact PPORecipe.respPaddingMask_eq_false hns t
  · simp only [PPORecipe.generateTrajectoryRow, hsl, PPORecipe.valueSeqIdx]
    rw [if_neg (by omega)]

/-- C2 witness: response `[5, 6, 7]` with stop-token id 0 and
`max_generated_tokens = 3`: `seq_lens = 3`, the padding mask is false
(shown at position 2), and `value_seq_idxs = seq_lens = 3`. -/
theorem C2_no_stop_token_row_witness :
    ([5, 6, 7] : List Int).length = 3
    ∧ PPORecipe.hasStopToken [0] [5, 6, 7] = false
    ∧ (PPORecipe.generateTrajectoryRow [0] 3 false 0 (-3) [5, 6, 7]
        (fun _ => -2) (fun _ => -2) (fun _ => 5) 1).seqLen = 3
    ∧ (PPORecipe.generateTrajectoryRow [0] 3 false 0 (-3) [5, 6, 7]
        (fun _ => -2) (fun _ => -2) (fun _ => 5) 1).responsePaddingMask 2 = false
    ∧ (PPORecipe.generateTrajectoryRow [0] 3 false 0 (-3) [5, 6, 7]
        (fun _ => -2) (fun _ => -2) (fun _ => 5) 1).valueSeqIdx =
      (PPORecipe.generateTrajectoryRow [0] 3 false 0 (-3) [5, 6, 7]
        (fun _ => -2) (fun _ => -2) (fun _ => 5) 1).seqLen :=
  have h := C2_no_stop_token_row [0] [5, 6, 7] 3 0 false (-3)
    (fun _ => -2) (fun _ => -2) (fun _ => 5) 1 (by decide) (by decide)
  ⟨by decide, by decide, h.1, h.2.1 2, h.2.2⟩

/-- C3: policy and reference log-probabilities at positions marked invalid by
`response_padding_masks` are set to the sentinel 1.0 and value estimates at
positions marked invalid by `value_padding_masks` are set to 0.0, both in
`generate_trajectory` and again in `ppo_step` when the recomputed tensors have
the same masks re-applied. -/
theorem C3_sentinel_masking (stopTokens response : List Int)
    (maxGen mrl : Nat) (pen : Bool) (rp : ℚ) (rawLp rawRef rawV : Nat → ℚ)
    (score : ℚ) (t : Nat) (g rows cols : Nat) (lossFn : PPORecipe.LossFn)
    (storedLp storedV rawPi rawPhi adv ret : Nat → Nat → ℚ)
    (respMasks valueMasks : Nat → Nat → Bool) (i u : Nat) :
    ((PPORecipe.generateTrajectoryRow stopTokens maxGen pen mrl rp response
        rawLp rawRef rawV score).responsePaddingMask t = true →
      (PPORecipe.generateTrajectoryRow stopTokens maxGen pen mrl rp response
        rawLp rawRef rawV score).logprobs t = 1
      ∧ (PPORecipe.generateTrajectoryRow stopTokens maxGen pen mrl rp response
        rawLp rawRef rawV score).refLogprobs t = 1)
    ∧ ((PPORecipe.generateTrajectoryRow stopTokens maxGen pen mrl rp response
        rawLp rawRef rawV score).valuePaddingMask t = true →
      (PPORecipe.generateTrajectoryRow stopTokens maxGen pen mrl rp response
        rawLp rawRef rawV score).values t = 0)
    ∧ (respMasks i u = true →
      (PPORecipe.ppoStep g rows cols lossFn storedLp storedV respMasks
        valueMasks rawPi rawPhi adv ret).piLogprobs i u = 1)
    ∧ (valueMasks i u = true →
      (PPORecipe.ppoStep g rows cols lossFn storedLp storedV respMasks
        valueMasks rawPi rawPhi adv ret).phiValues i u = 0) := by
  refine ⟨fun h => ⟨?_, ?_⟩, fun h => ?_, fun h => ?_, fun h => ?_⟩ <;>
    simp_all [PPORecipe.generateTrajectoryRow, PPORecipe.ppoStep]

/-- C3 witness: response `[5, 0, 7]` with stop-token id 0: position 1 is
masked, so the trajectory's log-probabilities there are 1 and its value is 0;
and a `ppo_step` microbatch with all-true masks has recomputed
log-probability 1 and value 0 at (0, 0). -/
theorem C3_sentinel_masking_witness :
    (PPORecipe.generateTrajectoryRow [0] 3 false 0 (-3) [5, 0, 7]
        (fun _ => -2) (fun _ => -2) (fun _ => 5) 1).responsePaddingMask 1 = true
    ∧ (PPORecipe.generateTrajectoryRow [0] 3 false 0 (-3) [5, 0, 7]
        (fun _ => -2) (fun _ => -2) (fun _ => 5) 1).logprobs 1 = 1
    ∧ (PPORecipe.generateTrajectoryRow [0] 3 false 0 (-3) [5, 0, 7]
        (fun _ => -2) (fun _ => -2) (fun _ => 5) 1).refLogprobs 1 = 1
    ∧ (PPORecipe.generateTrajectoryRow [0] 3 false 0 (-3) [5, 0, 7]
        (fun _ => -2) (fun _ => -2) (fun _ => 5) 1).values 1 = 0
    ∧ (PPORecipe.ppoStep 2 1 1 PPORecipe.zeroLossFn (fun _ _ => -2)
        (fun _ _ => 5) (fun _ _ => true) (fun _ _ => true) (fun _ _ => -1)
        (fun _ _ => 4) (fun _ _ => 0) (fun _ _ => 0)).piLogprobs 0 0 = 1
    ∧ (PPORecipe.ppoStep 2 1 1 PPORecipe.zeroLossFn (fun _ _ => -2)
        (fun _ _ => 5) (fun _ _ => true) (fun _ _ => true) (fun _ _ => -1)
        (fun _ _ => 4) (fun _ _ => 0) (fun _ _ => 0)).phiValues 0 0 = 0 :=
  have h := C3_sentinel_masking [0] [5, 0, 7] 3 0 false (-3)
    (fun _ => -2) (fun _ => -2) (fun _ => 5) 1 1 2 1 1 PPORecipe.zeroLossFn
    (fun _ _ => -2) (fun _ _ => 5) (fun _ _ => -1) (fun _ _ => 4)
    (fun _ _ => 0) (fun _ _ => 0) (fun _ _ => true) (fun _ _ => true) 0 0
  ⟨by decide, (h.1 (by decide)).1, (h.1 (by decide)).2, h.2.1 (by decide),
    h.2.2.1 rfl, h.2.2.2 rfl⟩

/-- C4 counterexample: with `gradient_accumulation_steps = 2`, stored
log-probabilities all 2 and recomputed log-probabilities all 0 on a 1×1
microbatch, the `approx_policy_kls` field returned in `PPOStats` is 1, while
`0.5 * mean((new_logprob - old_logprob)^2) = 2` — the returned diagnostic is
NOT the claimed value (it is that value divided by
`gradient_accumulation_steps`). -/
theorem C4_approx_kl_counterexample :
    (PPORecipe.ppoStep 2 1 1 PPORecipe.zeroLossFn (fun _ _ => 2)
        (fun _ _ => 0) (fun _ _ => false) (fun _ _ => false) (fun _ _ => 0)
        (fun _ _ => 0) (fun _ _ => 0) (fun _ _ => 0)).stats.approxPolicyKls
    ≠ (1 / 2) * PPORecipe.tensorMean 1 1 (fun i t =>
        ((PPORecipe.ppoStep 2 1 1 PPORecipe.zeroLossFn (fun _ _ => 2)
          (fun _ _ => 0) (fun _ _ => false) (fun _ _ => false) (fun _ _ => 0)
          (fun _ _ => 0) (fun _ _ => 0) (fun _ _ => 0)).piLogprobs i t -
          (fun _ _ => (2 : ℚ)) i t) ^ 2) := by
  norm_num [PPORecipe.ppoStep, PPORecipe.tensorMean, PPORecipe.zeroLossFn]

/-- C4 (amended): the approximate KL diagnostic returned in `PPOStats` equals
`0.5 * mean((new_logprob - old_logprob)^2)` divided by
`gradient_accumulation_steps`, where `new_logprob` are the recomputed (masked)
policy log-probabilities and `old_logprob` the trajectory's stored
log-probabilities. -/
theorem C4_approx_kl_scaled (g rows cols : Nat) (lossFn : PPORecipe.LossFn)
    (storedLp storedV rawPi rawPhi adv ret : Nat → Nat → ℚ)
    (respMasks valueMasks : Nat → Nat → Bool) :
    (PPORecipe.ppoStep g rows cols lossFn storedLp storedV respMasks
        valueMasks rawPi rawPhi adv ret).stats.approxPolicyKls =
      ((1 / 2) * PPORecipe.tensorMean rows cols (fun i t =>
        ((PPORecipe.ppoStep g rows cols lossFn storedLp storedV respMasks
          valueMasks rawPi rawPhi adv ret).piLogprobs i t -
          storedLp i t) ^ 2)) / (g : ℚ) := by
  simp only [PPORecipe.ppoStep]
  rw [← PPORecipe.tensorMean_const_mul rows cols (1 / 2)
    (fun i t => ((if respMasks i t then 1 else rawPi i t) - storedLp i t) ^ 2)]

/-- C6: in every trajectory row, wherever `value_padding_masks` is true,
`response_padding_masks` is also true, and the two masks differ at most at
the single position `value_seq_idxs` (the one-position shift). -/
theorem C6_value_mask_within_response_mask (stopTokens response : List Int)
    (maxGen mrl : Nat) (pen : Bool) (rp : ℚ) (rawLp rawRef rawV : Nat → ℚ)
    (score : ℚ) (t : Nat) :
    ((PPORecipe.generateTrajectoryRow stopTokens maxGen pen mrl rp response
        rawLp rawRef rawV score).valuePaddingMask t = true →
      (PPORecipe.generateTrajectoryRow stopTokens maxGen pen mrl rp response
        rawLp rawRef rawV score).responsePaddingMask t = true)
    ∧ ((PPORecipe.generateTrajectoryRow stopTokens maxGen pen mrl rp response
        rawLp rawRef rawV score).valuePaddingMask t ≠
      (PPORecipe.generateTrajectoryRow stopTokens maxGen pen mrl rp response
        rawLp rawRef rawV score).responsePaddingMask t →
      t = (PPORecipe.generateTrajectoryRow stopTokens maxGen pen mrl rp
        response rawLp rawRef rawV score).valueSeqIdx) := by
  simp only [PPORecipe.generateTrajectoryRow]
  constructor
  · intro h
    by_cases ht : t = PPORecipe.valueSeqIdx maxGen (PPORecipe.seqLen stopTokens response)
    · simp [ht] at h
    · simpa [ht] using h
  · intro h
    by_cases ht : t = PPORecipe.valueSeqIdx maxGen (PPORecipe.seqLen stopTokens response)
    · exact ht
    · simp [ht] at h

/-- C6 witness: response `[5, 0, 7]` with stop-token id 0: at position 1 the
value mask is true and so is the response mask; position 2 is the (shifted)
`value_seq_idxs` and the only position where the masks differ. -/
theorem C6_value_mask_within_response_mask_witness :
    (PPORecipe.generateTrajectoryRow [0] 3 false 0 (-3) [5, 0, 7]
        (fun _ => -2) (fun _ => -2) (fun _ => 5) 1).valuePaddingMask 1 = true
    ∧ (PPORecipe.generateTrajectoryRow [0] 3 false 0 (-3) [5, 0, 7]
        (fun _ => -2) (fun _ => -2) (fun _ => 5) 1).responsePaddingMask 1 = true
    ∧ 2 = (PPORecipe.generateTrajectoryRow [0] 3 false 0 (-3) [5, 0, 7]
        (fun _ => -2) (fun _ => -2) (fun _ => 5) 1).valueSeqIdx :=
  have h1 := C6_value_mask_within_response_mask [0] [5, 0, 7] 3 0 false (-3)
    (fun _ => -2) (fun _ => -2) (fun _ => 5) 1 1
  have h2 := C6_value_mask_within_response_mask [0] [5, 0, 7] 3 0 false (-3)
    (fun _ => -2) (fun _ => -2) (fun _ => 5) 1 2
  ⟨by decide, h1.1 (by decide), h2.2 (by decide)⟩

/-- C7: with `penalise_no_eos` enabled, every row in which no stop token is
ever generated has its final score equal to the configured `reward_penalty`
exactly, regardless of the reward model's output; likewise, with a minimum
response length configured, rows shorter than `min_response_length` have
their score overwritten with `reward_penalty`. -/
theorem C7_reward_penalty_overwrite (stopTokens response : List Int)
    (maxGen mrl : Nat) (pen : Bool) (rp : ℚ) (rawLp rawRef rawV : Nat → ℚ)
    (score : ℚ) :
    (pen = true → PPORecipe.hasStopToken stopTokens response = false →
      (PPORecipe.generateTrajectoryRow stopTokens maxGen pen mrl rp response
        rawLp rawRef rawV score).score = rp)
    ∧ (0 < mrl → PPORecipe.seqLen stopTokens response < mrl →
      (PPORecipe.generateTrajectoryRow stopTokens maxGen pen mrl rp response
        rawLp rawRef rawV score).score = rp) := by
  constructor
  · intro hpen hns
    simp [PPORecipe.generateTrajectoryRow, PPORecipe.rewardPenaltyMask, hpen, hns]
  · intro hmrl hsl
    simp [PPORecipe.generateTrajectoryRow, PPORecipe.rewardPenaltyMask, hmrl, hsl]

/-- C7 witness: response `[5, 6, 7]` never generates stop token 0; with
`penalise_no_eos` the final score is the penalty -3 although the reward model
returned 1.  Response `[0, 9, 9]` has `seq_lens = 0 < min_response_length =
2`, so its score is also overwritten with -3. -/
theorem C7_reward_penalty_overwrite_witness :
    PPORecipe.hasStopToken [0] [5, 6, 7] = false
    ∧ (PPORecipe.generateTrajectoryRow [0] 3 true 0 (-3) [5, 6, 7]
        (fun _ => -2) (fun _ => -2) (fun _ => 5) 1).score = -3
    ∧ PPORecipe.seqLen [0] [0, 9, 9] < 2
    ∧ (PPORecipe.generateTrajectoryRow [0] 3 false 2 (-3) [0, 9, 9]
        (fun _ => -2) (fun _ => -2) (fun _ => 5) 1).score = -3 :=
  have h1 := C7_reward_penalty_overwrite [0] [5, 6, 7] 3 0 true (-3)
    (fun _ => -2) (fun _ => -2) (fun _ => 5) 1
  have h2 := C7_reward_penalty_overwrite [0] [0, 9, 9] 3 2 false (-3)
    (fun _ => -2) (fun _ => -2) (fun _ => 5) 1
  ⟨by decide, h1.1 rfl (by decide), by decide, h2.2 (by decide) (by decide)⟩

/-- C10: in every trajectory row the scatter leaves `value_padding_masks`
false at position `value_seq_idxs`, so every row — including a row whose very
first generated token is a stop token (`seq_lens = 0`) — retains at least one
valid (unmasked) value position. -/
theorem C10_value_seq_idx_unmasked (stopTokens response : List Int)
    (maxGen mrl : Nat) (pen : Bool) (rp : ℚ) (rawLp rawRef rawV : Nat → ℚ)
    (score : ℚ) (hlen : response.length = maxGen) (hpos : 0 < maxGen) :
    (PPORecipe.generateTrajectoryRow stopTokens maxGen pen mrl rp response
        rawLp rawRef rawV score).valuePaddingMask
      (PPORecipe.generateTrajectoryRow stopTokens maxGen pen mrl rp response
        rawLp rawRef rawV score).valueSeqIdx = false
    ∧ ∃ t, t < maxGen ∧
        (PPORecipe.generateTrajectoryRow stopTokens maxGen pen mrl rp response
          rawLp rawRef rawV score).valuePaddingMask t = false := by
  constructor
  · simp [PPORecipe.generateTrajectoryRow]
  · by_cases h0 : PPORecipe.respPaddingMask stopTokens response 0 = true
    · have hsl : PPORecipe.seqLen stopTokens response = 0 := by
        unfold PPORecipe.seqLen
        rw [List.countP_eq_zero]
        intro t _
        simp [PPORecipe.respPaddingMask_mono stopTokens response (Nat.zero_le t) h0]
      refine ⟨0, hpos, ?_⟩
      have hidx : PPORecipe.valueSeqIdx maxGen (PPORecipe.seqLen stopTokens response) = 0 := by
        rw [hsl]
        simp [PPORecipe.valueSeqIdx]
      simp [PPORecipe.generateTrajectoryRow, hidx]
    · refine ⟨0, hpos, ?_⟩
      simp only [Bool.not_eq_true] at h0
      simp only [PPORecipe.generateTrajectoryRow]
      by_cases ht : 0 = PPORecipe.valueSeqIdx maxGen (PPORecipe.seqLen stopTokens response)
      · simp [ht]
      · simp [ht, h0]

/-- C10 witness: response `[0, 9, 9]` whose very first generated token is the
stop token (`seq_lens = 0`): `value_padding_masks` is false at
`value_seq_idxs = 0`, and position 0 is a valid value position. -/
theorem C10_value_seq_idx_unmasked_witness :
    ([0, 9, 9] : List Int).length = 3 ∧ 0 < 3
    ∧ (PPORecipe.generateTrajectoryRow [0] 3 false 0 (-3) [0, 9, 9]
        (fun _ => -2) (fun _ => -2) (fun _ => 5) 1).valuePaddingMask
      (PPORecipe.generateTrajectoryRow [0] 3 false 0 (-3) [0, 9, 9]
        (fun _ => -2) (fun _ => -2) (fun _ => 5) 1).valueSeqIdx = false :=
  have h := C10_value_seq_idx_unmasked [0] [0, 9, 9] 3 0 false (-3)
    (fun _ => -2) (fun _ => -2) (fun _ => 5) 1 (by decide) (by decide)
  ⟨by decide, by decide, h.1⟩

/-- C8: each executed dataset epoch performs exactly one checkpoint save (the
saved epochs are consecutive, one per epoch); every save except possibly the
last is intermediate; an intermediate save's policy checkpoint dict contains
the model weights together with seed, epochs_run, total_epochs, total_steps,
steps_run, RNG state, dataloader state and the optimizer state, while a
final (training-terminated) save contains only the model weights. -/
theorem C8_checkpoint_per_epoch (er te sr ts bpe : Nat) :
    ((PPORecipe.trainSaves er te sr ts bpe).map Prod.fst =
      List.range' er (PPORecipe.trainSaves er te sr ts bpe).length)
    ∧ (∀ i, i + 1 < (PPORecipe.trainSaves er te sr ts bpe).length →
        ((PPORecipe.trainSaves er te sr ts bpe).getD i (0, false)).2 = true)
    ∧ PPORecipe.policyCheckpointKeys true =
        [PPORecipe.CkptKey.model, PPORecipe.CkptKey.seed,
          PPORecipe.CkptKey.epochsRun, PPORecipe.CkptKey.totalEpochs,
          PPORecipe.CkptKey.maxSteps, PPORecipe.CkptKey.stepsRun,
          PPORecipe.CkptKey.rngState, PPORecipe.CkptKey.dataloader,
          PPORecipe.CkptKey.opt]
    ∧ PPORecipe.policyCheckpointKeys false = [PPORecipe.CkptKey.model] :=
  ⟨PPORecipe.trainSavesAux_map_fst (te - er) er sr ts bpe,
    fun i h => PPORecipe.trainSavesAux_intermediate (te - er) er sr ts bpe i h,
    rfl, rfl⟩

/-- C8 witness: starting fresh with total_steps = 3 and 2 batches per epoch,
the run saves `[(0, intermediate), (1, final)]`: one save per epoch, the
non-final save intermediate, and the key sets as claimed. -/
theorem C8_checkpoint_per_epoch_witness :
    (PPORecipe.trainSaves 0 2 0 3 2).map Prod.fst = [0, 1]
    ∧ 0 + 1 < (PPORecipe.trainSaves 0 2 0 3 2).length
    ∧ ((PPORecipe.trainSaves 0 2 0 3 2).getD 0 (0, false)).2 = true
    ∧ PPORecipe.policyCheckpointKeys false = [PPORecipe.CkptKey.model] :=
  have h := C8_checkpoint_per_epoch 0 2 0 3 2
  ⟨h.1, by decide, h.2.1 0 (by decide), h.2.2.2⟩

/-- C9: on a checkpoint dict missing the required recipe-state keys,
`_update_recipe_state` raises an immediate fatal error — but it is a
`TypeError`, not the claimed `KeyError`: the handler's
`raise KeyError from e(...)` calls the caught `KeyError` instance, which
raises `TypeError` before the intended re-raise completes.  Evaluated here at
the failing input of a checkpoint dict missing every recipe-state key. -/
theorem C9_missing_keys_raise (d : PPORecipe.RecipeCkptDict) :
    PPORecipe.updateRecipeState PPORecipe.emptyRecipeCkptDict =
      .error PPORecipe.PyError.typeError
    ∧ PPORecipe.updateRecipeState PPORecipe.emptyRecipeCkptDict ≠
      .error PPORecipe.PyError.keyError
    ∧ (PPORecipe.tryUpdateRecipeState d = .error PPORecipe.PyError.keyError →
        PPORecipe.updateRecipeState d = .error PPORecipe.PyError.typeError) := by
  refine ⟨rfl, ?_, fun h => ?_⟩
  · intro hcontra
    rw [show PPORecipe.updateRecipeState PPORecipe.emptyRecipeCkptDict =
        .error PPORecipe.PyError.typeError from rfl] at hcontra
    simp at hcontra
  · unfold PPORecipe.updateRecipeState
    rw [h]

/-- C9 witness: the empty checkpoint dict makes the `try` block raise
`KeyError`, and `_update_recipe_state` then propagates a `TypeError`. -/
theorem C9_missing_keys_raise_witness :
    PPORecipe.tryUpdateRecipeState PPORecipe.emptyRecipeCkptDict =
      .error PPORecipe.PyError.keyError
    ∧ PPORecipe.updateRecipeState PPORecipe.emptyRecipeCkptDict =
      .error PPORecipe.PyError.typeError :=
  have h := C9_missing_keys_raise PPORecipe.emptyRecipeCkptDict
  ⟨rfl, h.2.2 rfl⟩
